import Mathlib

/-!
Verification development for the ImagebotCloudflare repository (a Telegram
image-generation bot).  The Python sources `src/api/CloudImage.py`,
`src/api/NewImage.py` and `src/main.py` are shallowly embedded below:
pure text-processing functions become Lean functions over `List Char` /
`String`, the network is modelled by oracle parameters (the upstream reply
a call would have produced), and raised exceptions become `Except` values.
Python character classes are modelled on their ASCII portion, which covers
every character the embedded functions inspect (digits, ':', '/', spaces,
URL schemes); lowercasing maps through `Char.toLower` exactly as Python's
`str.lower` does on ASCII and never turns any character into one of the
inspected ones.
-/

namespace Imagebot

/-- Python's `\s` class restricted to ASCII: space, tab, newline, carriage
return, vertical tab, form feed. -/
def isPySpace (c : Char) : Bool :=
  c = ' ' || c = '\t' || c = '\n' || c = '\r' || c = '\x0b' || c = '\x0c'

/-- Python's `\w` class restricted to ASCII: letters, digits, underscore. -/
def isWordChar (c : Char) : Bool :=
  c.isAlphanum || c = '_'

/-- `str.strip()` on a character list: whitespace removed from both ends. -/
def pyStripList (l : List Char) : List Char :=
  ((l.dropWhile isPySpace).reverse.dropWhile isPySpace).reverse

/-- `str.strip()` on a `String`. -/
def pyStripStr (s : String) : String :=
  ⟨pyStripList s.data⟩

/-- Whether `pat` occurs as a contiguous substring of `l`
(Python's `pat in l`). -/
def listHasSub (l pat : List Char) : Bool :=
  if pat.isPrefixOf l then true
  else
    match l with
    | [] => false
    | _ :: rest => listHasSub rest pat

/-- `src/api/CloudImage.py`, `_pick_size_from_text`: lowercase the text,
remove the space characters (`.replace(" ", "")` removes exactly `' '`),
then probe the five ratio tokens in priority order; default 1024x1024. -/
def pick_size_from_text (text : String) : Nat × Nat :=
  let t := (text.data.map Char.toLower).filter (fun c => c ≠ ' ')
  if listHasSub t "16:9".data || listHasSub t "16/9".data then (1024, 576)
  else if listHasSub t "9:16".data || listHasSub t "9/16".data then (576, 1024)
  else if listHasSub t "4:3".data || listHasSub t "4/3".data then (1024, 768)
  else if listHasSub t "3:4".data || listHasSub t "3/4".data then (768, 1024)
  else if listHasSub t "1:1".data || listHasSub t "1/1".data then (1024, 1024)
  else (1024, 1024)

/-- The aspect-ratio heuristic exactly as the claim words it: normalize to
lowercase with ALL whitespace removed (the code only removes `' '`), then
the same priority chain.  Kept for comparison with `pick_size_from_text`. -/
def pick_size_claimed (text : String) : Nat × Nat :=
  let t := (text.data.map Char.toLower).filter (fun c => !isPySpace c)
  if listHasSub t "16:9".data || listHasSub t "16/9".data then (1024, 576)
  else if listHasSub t "9:16".data || listHasSub t "9/16".data then (576, 1024)
  else if listHasSub t "4:3".data || listHasSub t "4/3".data then (1024, 768)
  else if listHasSub t "3:4".data || listHasSub t "3/4".data then (768, 1024)
  else if listHasSub t "1:1".data || listHasSub t "1/1".data then (1024, 1024)
  else (1024, 1024)

/-- The five size pairs the spec's invariant names. -/
def fixedPairs : List (Nat × Nat) :=
  [(1024, 576), (576, 1024), (1024, 768), (768, 1024), (1024, 1024)]

/-- Claim C2, amended ("space characters removed" in place of "whitespace
removed"): the heuristic equals the amended-claim algorithm on every text,
and its output is always one of the five fixed pairs. -/
theorem pick_size_amended_correct (text : String) :
    pick_size_from_text text =
      (let t := (text.data.map Char.toLower).filter (fun c => c ≠ ' ')
       if listHasSub t "16:9".data || listHasSub t "16/9".data then (1024, 576)
       else if listHasSub t "9:16".data || listHasSub t "9/16".data then (576, 1024)
       else if listHasSub t "4:3".data || listHasSub t "4/3".data then (1024, 768)
       else if listHasSub t "3:4".data || listHasSub t "3/4".data then (768, 1024)
       else if listHasSub t "1:1".data || listHasSub t "1/1".data then (1024, 1024)
       else (1024, 1024)) ∧
    pick_size_from_text text ∈ fixedPairs := by
  refine ⟨rfl, ?_⟩
  unfold pick_size_from_text fixedPairs
  dsimp only
  split_ifs <;> simp

/-- Claim C2 fails as stated: on `"16\t:9"` the code does not remove the tab
(only `' '` is removed), so it falls back to the square default, while the
claimed whitespace-removing normalization would recognize `16:9`. -/
theorem pick_size_whitespace_cex :
    pick_size_from_text "16\t:9" = (1024, 1024) ∧
    pick_size_claimed "16\t:9" = (1024, 576) ∧
    pick_size_from_text "16\t:9" ≠ pick_size_claimed "16\t:9" := by
  refine ⟨by decide, by decide, by decide⟩

/-!
`src/api/CloudImage.py`, `_deepseek_prompt` cleans the user text with
`re.sub(r"\b(\d+\s*[:/]\s*\d+)\b", "", user_text).strip()` before sending it
to the prompt expander.  The regex is embedded directly: at a position whose
preceding character is not a word character, greedily take digits, optional
spaces, one `:` or `/`, optional spaces, digits, and require a word boundary
after.  For this pattern greedy matching never needs backtracking: shrinking
`\d+` or `\s*` always puts a digit or a space where `[:/]` is required, and
shrinking the final `\d+` puts the boundary between two digits.
-/

/-- Length of the ratio-token match of `\d+\s*[:/]\s*\d+\b` at the head of
`l` (the leading `\b` is the caller's charge), or `none`. -/
def matchRatio (l : List Char) : Option Nat :=
  let d1 := l.takeWhile Char.isDigit
  let r1 := l.dropWhile Char.isDigit
  if d1.isEmpty then none
  else
    let s1 := r1.takeWhile isPySpace
    let r2 := r1.dropWhile isPySpace
    match r2 with
    | [] => none
    | c :: r3 =>
      if c = ':' ∨ c = '/' then
        let s2 := r3.takeWhile isPySpace
        let r4 := r3.dropWhile isPySpace
        let d2 := r4.takeWhile Char.isDigit
        let r5 := r4.dropWhile Char.isDigit
        if d2.isEmpty then none
        else
          match r5 with
          | [] => some (d1.length + s1.length + 1 + s2.length + d2.length)
          | c2 :: _ =>
            if isWordChar c2 then none
            else some (d1.length + s1.length + 1 + s2.length + d2.length)
      else none

/-- `re.sub` scanning loop: walk the original string left to right, deleting
every non-overlapping leftmost match; `prevW` says whether the character
before the current position is a word character (for the leading `\b`).
The fuel argument only bounds the recursion; `subRatio` passes the string's
length, and every step consumes at least one character of it. -/
def subRatioF : Nat → List Char → Bool → List Char
  | 0, l, _ => l
  | _ + 1, [], _ => []
  | fuel + 1, c :: rest, prevW =>
    if prevW then c :: subRatioF fuel rest (isWordChar c)
    else
      match matchRatio (c :: rest) with
      | some n => subRatioF fuel ((c :: rest).drop n) true
      | none => c :: subRatioF fuel rest (isWordChar c)

/-- `re.sub(r"\b(\d+\s*[:/]\s*\d+)\b", "", s)` on a character list. -/
def subRatio (l : List Char) : List Char :=
  subRatioF l.length l false

/-- The prompt cleaning of `_deepseek_prompt`:
`re.sub(r"\b(\d+\s*[:/]\s*\d+)\b", "", user_text).strip()`. -/
def ratio_strip (s : String) : String :=
  ⟨pyStripList (subRatio s.data)⟩

/-- A successful ratio match contains a `:` or `/` among the inspected
characters, so a string without either separator has no match anywhere. -/
theorem matchRatio_none_of_no_sep (l : List Char)
    (h : ∀ a ∈ l, a ≠ ':' ∧ a ≠ '/') : matchRatio l = none := by
  unfold matchRatio
  dsimp only
  split
  · rfl
  · split
    · rfl
    · rename_i r2 c r3 heq
      have hc : c ∈ l := by
        have h1 : c ∈ List.dropWhile isPySpace (List.dropWhile Char.isDigit l) := by
          rw [heq]; exact List.mem_cons_self c r3
        exact List.dropWhile_subset _ (List.dropWhile_subset _ h1)
      have := h c hc
      rw [if_neg (by tauto)]

/-- With no `:` or `/` in the text, the substitution leaves it unchanged. -/
theorem subRatioF_no_sep (fuel : Nat) :
    ∀ (l : List Char) (w : Bool), (∀ a ∈ l, a ≠ ':' ∧ a ≠ '/') →
      subRatioF fuel l w = l := by
  induction fuel with
  | zero => intro l w _; rfl
  | succ n ih =>
    intro l w h
    match l with
    | [] => rfl
    | c :: rest =>
      have hrest : ∀ a ∈ rest, a ≠ ':' ∧ a ≠ '/' :=
        fun a ha => h a (List.mem_cons_of_mem c ha)
      have hm : matchRatio (c :: rest) = none := matchRatio_none_of_no_sep _ h
      cases w with
      | true => simp only [subRatioF, if_pos]; rw [ih rest _ hrest]
      | false => simp only [subRatioF, if_neg, hm]; rw [ih rest _ hrest]; simp

/-- Claim C3, amended: the stripping removes any word-bounded numeric ratio
token `digits [:/] digits` (optional spaces around the separator) — a strict
superset of the five recognized §4.1 patterns, as `2:3` shows — it never
touches text without a `:` or `/` separator (so non-ratio numeric substrings
survive), and on `"room 2:3 ratio"` it removes the token, retains the words
`room` and `ratio`, and a second application changes nothing there; it is
not idempotent on all inputs. -/
theorem ratio_strip_amended :
    (∀ s : String, (∀ a ∈ s.data, a ≠ ':' ∧ a ≠ '/') →
      ratio_strip s = pyStripStr s) ∧
    ratio_strip "room 2:3 ratio" = "room  ratio" ∧
    ratio_strip (ratio_strip "room 2:3 ratio") = ratio_strip "room 2:3 ratio" ∧
    ratio_strip "sea 16:9" = "sea" ∧
    ratio_strip "version 1.2 of 23" = "version 1.2 of 23" := by
  refine ⟨?_, by decide, by decide, by decide, by decide⟩
  intro s h
  unfold ratio_strip subRatio pyStripStr
  rw [subRatioF_no_sep _ _ _ h]

/-- Claim C3 fails as stated: stripping is not idempotent — on `"1 2:3:4"`
one application yields `"1 :4"`, whose digits and separator the deleted
token left adjacent, and the second application deletes that new token,
yielding `""`; and the non-§4.1 token `2:3` of `"room 2:3 ratio"` is
removed even though `2:3` is none of the five recognized patterns. -/
theorem ratio_strip_cex :
    ratio_strip "1 2:3:4" = "1 :4" ∧
    ratio_strip (ratio_strip "1 2:3:4") = "" ∧
    ratio_strip (ratio_strip "1 2:3:4") ≠ ratio_strip "1 2:3:4" ∧
    ratio_strip "room 2:3 ratio" ≠ "room 2:3 ratio" := by
  refine ⟨by decide, by decide, by decide, by decide⟩

/-!
JSON values as `resp.json()` yields them, Python truthiness, and the
base64-image extraction of `generate_image_sdxl`
(`src/api/CloudImage.py`, response handling).
-/

/-- A parsed JSON value (`resp.json()`).  Numbers are modelled as integers;
no inspected response uses fractional numbers. -/
inductive Json where
  | null : Json
  | bool (b : Bool) : Json
  | num (n : Int) : Json
  | str (s : String) : Json
  | arr (xs : List Json) : Json
  | obj (kvs : List (String × Json)) : Json

/-- Python truthiness of a JSON value (`if not b64`, `x or y`). -/
def truthy : Json → Bool
  | .null => false
  | .bool b => b
  | .num n => n ≠ 0
  | .str s => !s.data.isEmpty
  | .arr xs => !xs.isEmpty
  | .obj kvs => !kvs.isEmpty

/-- `dict.get(k)`: the value under the first matching key, or `None`.
Parsed JSON objects have unique keys, so first match is the lookup. -/
def jlookup (k : String) : List (String × Json) → Option Json
  | [] => none
  | (k', v) :: rest => if k' = k then some v else jlookup k rest

/-- `obj.get(k)` on an arbitrary JSON value (only objects hold keys). -/
def jget : Json → String → Option Json
  | .obj kvs, k => jlookup k kvs
  | _, _ => none

/-- `list(obj)` for a dict: its key list (and `[]` for non-dicts, whose
diagnostic the code prints as the value's type instead). -/
def jkeys : Json → List String
  | .obj kvs => kvs.map Prod.fst
  | _ => []

/-- Python `x or y` over optional JSON values (`None` and falsy values
fall through to the right operand). -/
def pyOr (a b : Option Json) : Option Json :=
  match a with
  | some v => if truthy v then some v else b
  | none => b

/-- The base64 probing of `generate_image_sdxl`:
`b64 = result.image or result.image_base64` when `result` is a dict, then
`b64 = b64 or image or image_base64` at top level; `if not b64` treats a
missing key and a falsy value (for strings: the empty string) alike, so the
result is the first truthy value in that order, or `none`. -/
def extract_b64 (j : Json) : Option Json :=
  match j with
  | .obj _ =>
    let fromResult :=
      match jget j "result" with
      | some (.obj rkvs) => pyOr (jlookup "image" rkvs) (jlookup "image_base64" rkvs)
      | _ => none
    let b64 := pyOr (pyOr fromResult (jget j "image")) (jget j "image_base64")
    match b64 with
    | some v => if truthy v then some v else none
    | none => none
  | _ => none

/-- Value of a standard base64 alphabet character. -/
def b64Index (c : Char) : Option Nat :=
  if 'A' ≤ c ∧ c ≤ 'Z' then some (c.toNat - 'A'.toNat)
  else if 'a' ≤ c ∧ c ≤ 'z' then some (c.toNat - 'a'.toNat + 26)
  else if '0' ≤ c ∧ c ≤ '9' then some (c.toNat - '0'.toNat + 52)
  else if c = '+' then some 62
  else if c = '/' then some 63
  else none

/-- Decode base64 quadruples into bytes; `=` padding only in the final
quadruple, as canonically padded data carries it. -/
def b64Groups : List Char → Option (List Nat)
  | [] => some []
  | a :: b :: c :: d :: rest =>
    match b64Index a, b64Index b with
    | some va, some vb =>
      if c = '=' then
        if d = '=' ∧ rest = [] then some [va * 4 + vb / 16] else none
      else
        match b64Index c with
        | some vc =>
          if d = '=' then
            if rest = [] then some [va * 4 + vb / 16, vb % 16 * 16 + vc / 4]
            else none
          else
            match b64Index d with
            | some vd =>
              (b64Groups rest).map
                (fun t => (va * 4 + vb / 16) :: (vb % 16 * 16 + vc / 4) ::
                  (vc % 4 * 64 + vd) :: t)
            | none => none
        | none => none
    | _, _ => none
  | _ => none

/-- `base64.b64decode`: characters outside the alphabet are discarded first
(default `validate=False`), then the length must be a multiple of four. -/
def b64decode (s : String) : Option (List Nat) :=
  let cs := s.data.filter (fun c => (b64Index c).isSome || c = '=')
  if cs.length % 4 = 0 then b64Groups cs else none

/-- The error cases `generate_image_sdxl` raises after a successful POST.
`unexpectedShape` carries the lowered content-type and the parsed key set
(the inner raise); `badResponse` stands for the other wrapped failures
(body not JSON, non-dict JSON without the probed keys resolving, or a
base64 payload `b64decode` rejects). -/
inductive GwErr where
  | missingCreds : GwErr
  | emptyExpansion : GwErr
  | transport (status : Nat) : GwErr
  | unexpectedShape (contentType : String) (keys : List String) : GwErr
  | badResponse (contentType : String) : GwErr
deriving DecidableEq

/-- Lowered content-type starts with `image/`
(`ct.startswith("image/")` after `.lower()`). -/
def isImageCT (ct : String) : Bool :=
  "image/".data.isPrefixOf (ct.data.map Char.toLower)

/-- The response handling of `generate_image_sdxl` from `raise_for_status`
on: a 4xx/5xx status raises `HTTPError`; an `image/*` content-type returns
the raw bytes; otherwise the body (`parsed` is `resp.json()` when the body
is JSON, `none` when parsing raises) is probed for a base64 image. -/
def gateway_handle (status : Nat) (ct : String) (raw : List Nat)
    (parsed : Option Json) : Except GwErr (List Nat) :=
  if 400 ≤ status ∧ status < 600 then .error (.transport status)
  else if isImageCT ct then .ok raw
  else
    match parsed with
    | none => .error (.badResponse ⟨ct.data.map Char.toLower⟩)
    | some j =>
      match extract_b64 j with
      | none => .error (.unexpectedShape ⟨ct.data.map Char.toLower⟩ (jkeys j))
      | some v =>
        match v with
        | .str s =>
          match b64decode s with
          | some bytes => .ok bytes
          | none => .error (.badResponse ⟨ct.data.map Char.toLower⟩)
        | _ => .error (.badResponse ⟨ct.data.map Char.toLower⟩)

/-- Claim C5: with a success status and an image content-type the body
bytes are returned unchanged, whatever they are. -/
theorem sdxl_image_passthrough (status : Nat) (ct : String) (raw : List Nat)
    (parsed : Option Json) (hs : ¬(400 ≤ status ∧ status < 600))
    (hct : isImageCT ct = true) :
    gateway_handle status ct raw parsed = .ok raw := by
  unfold gateway_handle
  rw [if_neg hs, if_pos hct]

/-- Witness for C5 at a concrete response. -/
theorem sdxl_image_passthrough_witness :
    gateway_handle 200 "image/png" [137, 80, 78, 71] none = .ok [137, 80, 78, 71] :=
  sdxl_image_passthrough 200 "image/png" [137, 80, 78, 71] none
    (by decide) (by decide)

/-- A nonempty string is truthy. -/
theorem truthy_str_of_ne {b : String} (hb : b ≠ "") : truthy (.str b) = true := by
  obtain ⟨data⟩ := b
  cases data with
  | nil => exact absurd rfl hb
  | cons c cs => rfl

/-- Claim C1: on a non-image success response whose body is a JSON object,
a (truthy) base64 value is extracted from each of the four key paths
`image`, `image_base64`, `result.image`, `result.image_base64` and decoded;
an object from which none of the probed paths yields a truthy value — such
as `{"foo": "bar"}` — raises the unexpected-shape error carrying the
content-type and the object's key set. -/
theorem sdxl_json_extraction_paths (status : Nat) (ct : String) (raw : List Nat)
    (hs : ¬(400 ≤ status ∧ status < 600)) (hct : isImageCT ct = false)
    (b : String) (bs : List Nat) (hb : b ≠ "") (hd : b64decode b = some bs) :
    gateway_handle status ct raw (some (.obj [("image", .str b)])) = .ok bs ∧
    gateway_handle status ct raw (some (.obj [("image_base64", .str b)])) = .ok bs ∧
    gateway_handle status ct raw
      (some (.obj [("result", .obj [("image", .str b)])])) = .ok bs ∧
    gateway_handle status ct raw
      (some (.obj [("result", .obj [("image_base64", .str b)])])) = .ok bs ∧
    (∀ j : Json, extract_b64 j = none →
      gateway_handle status ct raw (some j) =
        .error (.unexpectedShape ⟨ct.data.map Char.toLower⟩ (jkeys j))) ∧
    gateway_handle status ct raw (some (.obj [("foo", .str "bar")])) =
      .error (.unexpectedShape ⟨ct.data.map Char.toLower⟩ ["foo"]) := by
  have ht : truthy (Json.str b) = true := truthy_str_of_ne hb
  refine ⟨?_, ?_, ?_, ?_, ?_, ?_⟩
  · simp [gateway_handle, hs, hct, extract_b64, jget, jlookup, pyOr, ht, hd]
  · simp [gateway_handle, hs, hct, extract_b64, jget, jlookup, pyOr, ht, hd]
  · simp [gateway_handle, hs, hct, extract_b64, jget, jlookup, pyOr, ht, hd]
  · simp [gateway_handle, hs, hct, extract_b64, jget, jlookup, pyOr, ht, hd]
  · intro j hj
    simp [gateway_handle, hs, hct, hj]
  · simp [gateway_handle, hs, hct, extract_b64, jget, jlookup, pyOr, jkeys]

/-- Witness for C1: a 200 JSON response `{"image": "aGk="}` decodes to the
bytes of `"hi"`. -/
theorem sdxl_json_extraction_paths_witness :
    gateway_handle 200 "application/json" []
      (some (.obj [("image", .str "aGk=")])) = .ok [104, 105] :=
  (sdxl_json_extraction_paths 200 "application/json" [] (by decide) (by decide)
    "aGk=" [104, 105] (by decide) (by decide)).1

/-- Claim C10: among the probed paths, `result.image` wins over
`result.image_base64`, and both win over the top-level keys, where `image`
wins over `image_base64`; a key holding a falsy value (for strings, the
empty string) is passed over exactly as a missing key is. -/
theorem extract_b64_precedence (v1 v2 v3 v4 : Json) :
    (truthy v1 = true →
      extract_b64 (.obj [("image", v3), ("image_base64", v4),
        ("result", .obj [("image", v1), ("image_base64", v2)])]) = some v1) ∧
    (truthy v1 = false → truthy v2 = true →
      extract_b64 (.obj [("image", v3), ("image_base64", v4),
        ("result", .obj [("image", v1), ("image_base64", v2)])]) = some v2) ∧
    (truthy v1 = false → truthy v2 = false → truthy v3 = true →
      extract_b64 (.obj [("image", v3), ("image_base64", v4),
        ("result", .obj [("image", v1), ("image_base64", v2)])]) = some v3) ∧
    (truthy v1 = false → truthy v2 = false → truthy v3 = false →
      truthy v4 = true →
      extract_b64 (.obj [("image", v3), ("image_base64", v4),
        ("result", .obj [("image", v1), ("image_base64", v2)])]) = some v4) ∧
    (truthy v1 = false → truthy v2 = false → truthy v3 = false →
      truthy v4 = false →
      extract_b64 (.obj [("image", v3), ("image_base64", v4),
        ("result", .obj [("image", v1), ("image_base64", v2)])]) = none) ∧
    extract_b64 (.obj [("image", .str ""), ("image_base64", .str "x")]) =
      some (.str "x") := by
  refine ⟨?_, ?_, ?_, ?_, ?_, ?_⟩
  · intro h1; simp [extract_b64, jget, jlookup, pyOr, h1]
  · intro h1 h2; simp [extract_b64, jget, jlookup, pyOr, h1, h2]
  · intro h1 h2 h3; simp [extract_b64, jget, jlookup, pyOr, h1, h2, h3]
  · intro h1 h2 h3 h4; simp [extract_b64, jget, jlookup, pyOr, h1, h2, h3, h4]
  · intro h1 h2 h3 h4; simp [extract_b64, jget, jlookup, pyOr, h1, h2, h3, h4]
  · simp [extract_b64, jget, jlookup, pyOr, truthy]

/-!
`src/api/NewImage.py`, `generate_image_flux_url`: the model's reply text is
stripped and scanned with `re.search(r"(https?://[^\s\)]+)", text)`; the
first match is returned, otherwise a no-URL error carrying `text[:200]` is
raised.  For this pattern greedy matching is deterministic: after `http`,
the optional `s` is taken exactly when the next characters are `s://`, and
the character class is taken maximally.
-/

/-- Characters the URL body `[^\s\)]+` accepts: no whitespace, no `)`. -/
def urlPred (c : Char) : Bool :=
  !isPySpace c && (c ≠ ')')

/-- Remove the literal pattern `p` from the head of `l`. -/
def stripPre : List Char → List Char → Option (List Char)
  | [], l => some l
  | _ :: _, [] => none
  | p :: ps, c :: cs => if c = p then stripPre ps cs else none

/-- The regex match anchored at the head of `l`: scheme (with the optional
`s` taken greedily) then a maximal nonempty body. -/
def matchUrlAt (l : List Char) : Option (List Char) :=
  match stripPre "https://".data l with
  | some r =>
    let b := r.takeWhile urlPred
    if b.isEmpty then none else some ("https://".data ++ b)
  | none =>
    match stripPre "http://".data l with
    | some r =>
      let b := r.takeWhile urlPred
      if b.isEmpty then none else some ("http://".data ++ b)
    | none => none

/-- `re.search`: the match at the leftmost position that has one. -/
def find_url : List Char → Option (List Char)
  | [] => none
  | c :: rest =>
    match matchUrlAt (c :: rest) with
    | some m => some m
    | none => find_url rest

/-- A string of the claimed URL shape: `http://` or `https://` followed by
one or more characters that are neither whitespace nor `)`. -/
def isUrlToken (u : List Char) : Bool :=
  match stripPre "https://".data u with
  | some b => !b.isEmpty && b.all urlPred
  | none =>
    match stripPre "http://".data u with
    | some b => !b.isEmpty && b.all urlPred
    | none => false

/-- A URL-shaped token starts at the head of `l`. -/
def TokenAt (l : List Char) : Prop :=
  ∃ u post, isUrlToken u = true ∧ l = u ++ post

/-- A URL-shaped token occurs somewhere in `l`. -/
def HasUrlSub (l : List Char) : Prop :=
  ∃ pre u post, isUrlToken u = true ∧ l = pre ++ u ++ post

/-- `m` is the leftmost, greedily maximal URL match in `l`. -/
def FirstUrl (l m : List Char) : Prop :=
  isUrlToken m = true ∧
  ∃ pre post, l = pre ++ m ++ post ∧
    (∀ pre2 rest, l = pre2 ++ rest → pre2.length < pre.length → ¬TokenAt rest) ∧
    (∀ c t, post = c :: t → urlPred c = false)

theorem stripPre_eq_some : ∀ (p l r : List Char), stripPre p l = some r → l = p ++ r := by
  intro p
  induction p with
  | nil => intro l r h; cases h; rfl
  | cons a ps ih =>
    intro l r h
    match l with
    | [] => cases h
    | c :: cs =>
      unfold stripPre at h
      split at h
      · rename_i hc; subst hc; rw [ih cs r h]; rfl
      · cases h

theorem stripPre_self_append : ∀ (p r : List Char), stripPre p (p ++ r) = some r := by
  intro p
  induction p with
  | nil => intro r; rfl
  | cons a ps ih => intro r; simpa [stripPre] using ih r

theorem dropWhile_head_false {p : Char → Bool} :
    ∀ (l : List Char) {c : Char} {t : List Char},
      List.dropWhile p l = c :: t → p c = false := by
  intro l
  induction l with
  | nil => intro c t h; cases h
  | cons a l ih =>
    intro c t h
    rw [List.dropWhile_cons] at h
    split at h
    · exact ih h
    · rename_i hp; cases h; simpa using hp

theorem takeWhile_append_all {p : Char → Bool} :
    ∀ (l1 l2 : List Char), (∀ a ∈ l1, p a = true) →
      (l1 ++ l2).takeWhile p = l1 ++ l2.takeWhile p := by
  intro l1
  induction l1 with
  | nil => intro l2 _; rfl
  | cons a l ih =>
    intro l2 h
    have ha : p a = true := h a (List.mem_cons_self a l)
    simp only [List.cons_append, List.takeWhile_cons, ha, if_true]
    rw [ih l2 (fun x hx => h x (List.mem_cons_of_mem a hx))]

/-- A successful anchored match yields a token that is a prefix of `l`,
with the character after it (if any) outside the body class. -/
theorem matchUrlAt_eq_some {l m : List Char} (h : matchUrlAt l = some m) :
    isUrlToken m = true ∧
    ∃ post, l = m ++ post ∧ (∀ c t, post = c :: t → urlPred c = false) := by
  unfold matchUrlAt at h
  split at h
  · rename_i r hr
    dsimp only at h
    split at h
    · cases h
    · rename_i hb
      cases h
      have hl : l = "https://".data ++ r := stripPre_eq_some _ _ _ hr
      have hsplit : r.takeWhile urlPred ++ r.dropWhile urlPred = r :=
        List.takeWhile_append_dropWhile urlPred r
      refine ⟨?_, r.dropWhile urlPred, ?_, ?_⟩
      · unfold isUrlToken
        rw [stripPre_self_append]
        simp only [hb, Bool.not_false, Bool.true_and, List.all_eq_true]
        exact fun a ha => List.mem_takeWhile_imp ha
      · rw [hl, List.append_assoc, hsplit]
      · exact fun c t hct => dropWhile_head_false _ hct
  · rename_i hr1
    split at h
    · rename_i r hr
      dsimp only at h
      split at h
      · cases h
      · rename_i hb
        cases h
        have hl : l = "http://".data ++ r := stripPre_eq_some _ _ _ hr
        have hsplit : r.takeWhile urlPred ++ r.dropWhile urlPred = r :=
          List.takeWhile_append_dropWhile urlPred r
        refine ⟨?_, r.dropWhile urlPred, ?_, ?_⟩
        · unfold isUrlToken
          have : stripPre "https://".data ("http://".data ++
              r.takeWhile urlPred) = none := by
            simp [stripPre]
          rw [this, stripPre_self_append]
          simp only [hb, Bool.not_false, Bool.true_and, List.all_eq_true]
          exact fun a ha => List.mem_takeWhile_imp ha
        · rw [hl, List.append_assoc, hsplit]
        · exact fun c t hct => dropWhile_head_false _ hct
    · cases h

/-- If a URL token starts at the head of `l`, the anchored match succeeds. -/
theorem matchUrlAt_of_tokenAt {l : List Char} (h : TokenAt l) :
    matchUrlAt l ≠ none := by
  obtain ⟨u, post, hu, hl⟩ := h
  unfold isUrlToken at hu
  unfold matchUrlAt
  rcases h1 : stripPre "https://".data u with _ | b
  · rw [h1] at hu
    rcases h2 : stripPre "http://".data u with _ | b
    · rw [h2] at hu; cases hu
    · rw [h2] at hu
      have hub : u = "http://".data ++ b := stripPre_eq_some _ _ _ h2
      simp only [Bool.and_eq_true, Bool.not_eq_true', List.all_eq_true] at hu
      obtain ⟨hu1, hu2⟩ := hu
      rcases b with _ | ⟨bc, bcs⟩
      · exact absurd hu1 (by simp)
      · have hl2 : l = "http://".data ++ (bc :: bcs ++ post) := by
          rw [hl, hub, List.append_assoc]
        have hs1 : stripPre "https://".data l = none := by
          rw [hl2]; simp [stripPre]
        rw [hs1, hl2, stripPre_self_append]
        dsimp only
        rw [takeWhile_append_all (bc :: bcs) post hu2]
        intro hcon
        simp at hcon
  · rw [h1] at hu
    have hub : u = "https://".data ++ b := stripPre_eq_some _ _ _ h1
    simp only [Bool.and_eq_true, Bool.not_eq_true', List.all_eq_true] at hu
    obtain ⟨hu1, hu2⟩ := hu
    rcases b with _ | ⟨bc, bcs⟩
    · exact absurd hu1 (by simp)
    · have hl2 : l = "https://".data ++ (bc :: bcs ++ post) := by
        rw [hl, hub, List.append_assoc]
      rw [hl2, stripPre_self_append]
      dsimp only
      rw [takeWhile_append_all (bc :: bcs) post hu2]
      intro hcon
      simp at hcon

/-- `re.search` returns `None` exactly when no URL-shaped substring occurs. -/
theorem find_url_none_iff (l : List Char) :
    find_url l = none ↔ ¬HasUrlSub l := by
  induction l with
  | nil =>
    simp only [find_url, true_iff]
    rintro ⟨pre, u, post, hu, hl⟩
    have h0 : pre ++ u ++ post = [] := hl.symm
    rw [List.append_eq_nil, List.append_eq_nil] at h0
    rw [h0.1.2] at hu
    exact absurd hu (by decide)
  | cons c rest ih =>
    constructor
    · intro h
      rcases hm : matchUrlAt (c :: rest) with _ | m
      · rw [find_url, hm] at h
        rintro ⟨pre, u, post, hu, hl⟩
        match pre, hl with
        | [], hl =>
          exact matchUrlAt_of_tokenAt ⟨u, post, hu, by simpa using hl⟩ hm
        | c2 :: pre2, hl =>
          simp only [List.cons_append, List.cons.injEq] at hl
          exact (ih.mp h) ⟨pre2, u, post, hu, hl.2⟩
      · rw [find_url, hm] at h; cases h
    · intro h
      have hm : matchUrlAt (c :: rest) = none := by
        rcases hm : matchUrlAt (c :: rest) with _ | m
        · rfl
        · obtain ⟨_, post, hl, _⟩ := matchUrlAt_eq_some hm
          exact absurd ⟨[], m, post, (matchUrlAt_eq_some hm).1, by simpa using hl⟩ h
      rw [find_url, hm]
      exact ih.mpr fun ⟨pre, u, post, hu, hl⟩ =>
        h ⟨c :: pre, u, post, hu, by simp [hl]⟩

/-- A successful `re.search` is the leftmost, greedily maximal match. -/
theorem find_url_first {l m : List Char} (h : find_url l = some m) :
    FirstUrl l m := by
  induction l with
  | nil => cases h
  | cons c rest ih =>
    rcases hm : matchUrlAt (c :: rest) with _ | m0
    · rw [find_url, hm] at h
      obtain ⟨htok, pre0, post, hl, hmin, hbound⟩ := ih h
      refine ⟨htok, c :: pre0, post, by simp [hl], ?_, hbound⟩
      intro pre2 rest2 hsplit hlen
      match pre2, hsplit with
      | [], hsplit =>
        intro ht
        have he : rest2 = c :: rest := by simpa using hsplit.symm
        rw [he] at ht
        exact matchUrlAt_of_tokenAt ht hm
      | c2 :: pre2', hsplit =>
        simp only [List.cons_append, List.cons.injEq] at hsplit
        simp only [List.length_cons] at hlen
        exact hmin pre2' rest2 hsplit.2 (by omega)
    · rw [find_url, hm] at h
      cases h
      obtain ⟨htok, post, hl, hbound⟩ := matchUrlAt_eq_some hm
      exact ⟨htok, [], post, by simpa using hl,
        fun _ _ _ hlen => absurd hlen (Nat.not_lt_zero _), hbound⟩

/-- The error `generate_image_flux_url` raises when no URL matches; carries
`text[:200]` of the stripped reply. -/
inductive FluxErr where
  | noUrl (raw : String) : FluxErr
deriving DecidableEq

/-- `src/api/NewImage.py`, `generate_image_flux_url` from the reply on: the
message content (`None` becomes `""`) is stripped, the first URL-shaped
substring is returned, otherwise the no-URL error is raised. -/
def generate_image_flux_url (content : Option String) : Except FluxErr String :=
  let text := pyStripList (content.getD "").data
  match find_url text with
  | some m => .ok ⟨m⟩
  | none => .error (.noUrl ⟨text.take 200⟩)

/-- Claim C4: a reply with no URL-shaped substring fails with the no-URL
error carrying a 200-character prefix of the (stripped) text; a success is
the first substring matching `http(s)://` followed by non-whitespace,
non-`)` characters; on the documented examples the first URL is returned
and `"no link here"` fails. -/
theorem flux_url_extraction :
    (∀ content : Option String,
      ¬HasUrlSub (pyStripList (content.getD "").data) →
        generate_image_flux_url content =
          .error (.noUrl ⟨(pyStripList (content.getD "").data).take 200⟩)) ∧
    (∀ (content : Option String) (m : String),
      generate_image_flux_url content = .ok m →
        FirstUrl (pyStripList (content.getD "").data) m.data) ∧
    generate_image_flux_url
        (some "Here is your image: https://cdn.example.com/a.png enjoy") =
      .ok "https://cdn.example.com/a.png" ∧
    generate_image_flux_url (some "no link here") =
      .error (.noUrl "no link here") ∧
    generate_image_flux_url (some "see http://a.com and https://b.org today") =
      .ok "http://a.com" := by
  refine ⟨?_, ?_, rfl, rfl, rfl⟩
  · intro content h
    unfold generate_image_flux_url
    dsimp only
    rw [(find_url_none_iff _).mpr h]
  · intro content m h
    unfold generate_image_flux_url at h
    dsimp only at h
    rcases hf : find_url (pyStripList (content.getD "").data) with _ | m0
    · rw [hf] at h; cases h
    · rw [hf] at h
      cases h
      exact find_url_first hf

/-!
The `generate_image_sdxl` pipeline of `src/api/CloudImage.py` from its
entry to the gateway call.  The two network interactions are oracles: the
chat-completion reply the expander would return (`deepseekContent`, `none`
for a null message content) and the gateway's HTTP response (`GwResp`).
The outbound calls the run issues are recorded as an event list, in order.
-/

/-- `if not X` on an environment value: absent (`None`) or empty. -/
def credMissing : Option String → Bool
  | none => true
  | some s => s.data.isEmpty

/-- The gateway's HTTP response: status, content-type header, body bytes,
and the body's JSON parse (`none` when `resp.json()` raises). -/
structure GwResp where
  status : Nat
  contentType : String
  raw : List Nat
  parsed : Option Json

/-- The outbound network calls of one `generate_image_sdxl` run. -/
inductive Event where
  | expandCall (cleaned : String) (width height : Nat) : Event
  | gatewayCall (prompt : String) (width height : Nat) (endpoint : String) : Event
deriving DecidableEq

def SDXL_ENDPOINT : String := "@cf/stabilityai/stable-diffusion-xl-base-1.0"

/-- `generate_image_sdxl`: check the three gateway env values, pick the
size, expand the prompt via DeepSeek (its reply cleaned of ratio tokens is
what goes out; `(content or "").strip()` comes back), fail on a blank
expansion, then POST the job and handle the response. -/
def generate_image_sdxl (account gatewayId token : Option String)
    (user_text : String) (deepseekContent : Option String) (resp : GwResp) :
    Except GwErr (List Nat × (String × Nat × Nat)) × List Event :=
  if credMissing account || credMissing gatewayId || credMissing token then
    (.error .missingCreds, [])
  else
    let wh := pick_size_from_text user_text
    let cleaned := ratio_strip user_text
    let final := pyStripStr (deepseekContent.getD "")
    if final = "" then
      (.error .emptyExpansion, [.expandCall cleaned wh.1 wh.2])
    else
      ((gateway_handle resp.status resp.contentType resp.raw resp.parsed).map
          (fun bytes => (bytes, (final, wh.1, wh.2))),
        [.expandCall cleaned wh.1 wh.2,
         .gatewayCall final wh.1 wh.2 SDXL_ENDPOINT])

/-- Claim C7: with any of the three gateway identity values absent or
empty, the run fails with the missing-credentials error and issues no
network call at all. -/
theorem sdxl_missing_creds_aborts (a g t : Option String) (text : String)
    (content : Option String) (resp : GwResp)
    (h : credMissing a = true ∨ credMissing g = true ∨ credMissing t = true) :
    (generate_image_sdxl a g t text content resp).1 = .error .missingCreds ∧
    (generate_image_sdxl a g t text content resp).2 = [] := by
  unfold generate_image_sdxl
  rcases h with h | h | h <;> simp [h]

/-- Witness for C7: a missing account id aborts before any call. -/
theorem sdxl_missing_creds_aborts_witness :
    (generate_image_sdxl none (some "gw") (some "tok") "cat" (some "a cat")
        ⟨200, "image/png", [1], none⟩).1 = .error .missingCreds ∧
    (generate_image_sdxl none (some "gw") (some "tok") "cat" (some "a cat")
        ⟨200, "image/png", [1], none⟩).2 = [] :=
  sdxl_missing_creds_aborts none (some "gw") (some "tok") "cat" (some "a cat")
    ⟨200, "image/png", [1], none⟩ (Or.inl (by decide))

/-- Claim C6: when the expansion comes back blank (empty after stripping),
the run fails with the empty-expansion error having issued only the
expansion call — no gateway call is built or sent; and in every run
whatsoever, a gateway call carries a nonempty prompt. -/
theorem sdxl_empty_expansion_aborts (a g t : Option String) (text : String)
    (content : Option String) (resp : GwResp)
    (ha : credMissing a = false) (hg : credMissing g = false)
    (ht : credMissing t = false) (hc : pyStripStr (content.getD "") = "") :
    (generate_image_sdxl a g t text content resp).1 = .error .emptyExpansion ∧
    (generate_image_sdxl a g t text content resp).2 =
      [.expandCall (ratio_strip text) (pick_size_from_text text).1
        (pick_size_from_text text).2] ∧
    (∀ (p : String) (w h : Nat) (ep : String),
      Event.gatewayCall p w h ep ∉ (generate_image_sdxl a g t text content resp).2) ∧
    (∀ (a2 g2 t2 : Option String) (text2 : String) (content2 : Option String)
        (resp2 : GwResp) (p : String) (w h : Nat) (ep : String),
      Event.gatewayCall p w h ep ∈ (generate_image_sdxl a2 g2 t2 text2 content2 resp2).2 →
        p ≠ "") := by
  refine ⟨?_, ?_, ?_, ?_⟩
  · simp [generate_image_sdxl, ha, hg, ht, hc]
  · simp [generate_image_sdxl, ha, hg, ht, hc]
  · intro p w h ep
    simp [generate_image_sdxl, ha, hg, ht, hc]
  · intro a2 g2 t2 text2 content2 resp2 p w h ep hm
    unfold generate_image_sdxl at hm
    split at hm
    · simp at hm
    · dsimp only at hm
      split at hm
      · simp at hm
      · rename_i hfinal
        simp only [List.mem_cons, List.not_mem_nil, or_false] at hm
        rcases hm with hm | hm
        · cases hm
        · cases hm
          exact hfinal

/-- Witness for C6: a whitespace-only expansion aborts with only the
expansion call recorded. -/
theorem sdxl_empty_expansion_aborts_witness :
    (generate_image_sdxl (some "acct") (some "gw") (some "tok") "a cat"
        (some "  ") ⟨200, "image/png", [1], none⟩).1 = .error .emptyExpansion :=
  (sdxl_empty_expansion_aborts (some "acct") (some "gw") (some "tok") "a cat"
    (some "  ") ⟨200, "image/png", [1], none⟩
    (by decide) (by decide) (by decide) (by decide)).1

/-!
The command dispatcher of `src/main.py` (`handle_image`, `handle_flux`).
An incoming message is its optional text; the backend call is an oracle
from the extracted prompt to the backend's result; the visible behaviour
of a handler is the ordered list of bot actions it performs.  `thinkingOk`
says whether posting the transient "working" notice succeeded (its `try`
swallows a failure, leaving `thinking = None`); `_deleteFails` stands for
the best-effort `bot.delete_message` raising — its `try/except: pass`
swallows the error, so the parameter cannot influence anything. -/

/-- The chat-visible actions a handler performs, in order. -/
inductive BotAction where
  | replyText (msg : String) : BotAction
  | sendWorking (msg : String) : BotAction
  | generate (prompt : String) : BotAction
  | sendPhotoBytes (bytes : List Nat) (caption : String) : BotAction
  | sendPhotoUrl (url : String) (caption : String) : BotAction
  | deleteWorking : BotAction
deriving DecidableEq

/-- `(message.text or "")[6:].strip()`. -/
def image_prompt (text : Option String) : String :=
  pyStripStr ⟨(text.getD "").data.drop 6⟩

/-- `(message.text or "")[5:].strip()`. -/
def flux_prompt (text : Option String) : String :=
  pyStripStr ⟨(text.getD "").data.drop 5⟩

def usage_image : String := "用法：/image 提示词（例如：/image 抽象 大海 16:9）"

def usage_flux : String := "用法：/flux 提示词（例如：/flux cute dog, watercolor）"

def working_sdxl : String := "Drawing (SDXL)..."

def working_flux : String := "Drawing (FLUX)..."

/-- The `/image` success caption:
`f"SDXL | {w}x{h} | {final_prompt[:120]}"`. -/
def sdxl_caption (meta : String × Nat × Nat) : String :=
  "SDXL | " ++ toString meta.2.1 ++ "x" ++ toString meta.2.2 ++ " | " ++
    ⟨meta.1.data.take 120⟩

/-- The failure reply `f"出图失败：{type(e).__name__}: {e}"`. -/
def errReply (name msg : String) : String :=
  "出图失败：" ++ name ++ ": " ++ msg

/-- `type(e).__name__` of the modelled errors: `raise_for_status` raises a
`requests.HTTPError`; everything else the client raises is `RuntimeError`. -/
def gwErrName : GwErr → String
  | .transport _ => "HTTPError"
  | _ => "RuntimeError"

/-- `str(e)` of the modelled errors (the transport reason text upstream
formats is summarized by its status code). -/
def gwErrMsg : GwErr → String
  | .missingCreds =>
    "Missing Cloudflare gateway env vars: account_id/gateway_id/cloudflare_token"
  | .emptyExpansion => "DeepSeek returned empty prompt"
  | .transport s => toString s ++ " Error"
  | .unexpectedShape ct _ =>
    "Unexpected gateway response (not image, not json-with-b64). content-type=" ++ ct
  | .badResponse ct =>
    "Unexpected gateway response (not image, not json-with-b64). content-type=" ++ ct

/-- `str(e)` of the flux client's error. -/
def fluxErrMsg : FluxErr → String
  | .noUrl raw => "FLUX returned no URL. raw=" ++ raw

/-- `handle_image` of `src/main.py`: empty prompt replies with the usage
hint and stops; otherwise the working notice (when posting it succeeds),
the backend call, the photo or the error reply, and the best-effort
notice removal. -/
def handle_image (text : Option String) (thinkingOk : Bool)
    (gen : String → Except GwErr (List Nat × (String × Nat × Nat)))
    (_deleteFails : Bool) : List BotAction :=
  if image_prompt text = "" then [.replyText usage_image]
  else
    (if thinkingOk then [.sendWorking working_sdxl] else []) ++
    (match gen (image_prompt text) with
     | .ok r => [.generate (image_prompt text), .sendPhotoBytes r.1 (sdxl_caption r.2)]
     | .error e =>
       [.generate (image_prompt text),
        .replyText (errReply (gwErrName e) (gwErrMsg e))]) ++
    (if thinkingOk then [.deleteWorking] else [])

/-- `handle_flux` of `src/main.py`: as `handle_image`, with the flux
backend, sending by URL with the fixed caption `"FLUX"`. -/
def handle_flux (text : Option String) (thinkingOk : Bool)
    (genf : String → Except FluxErr String) (_deleteFails : Bool) : List BotAction :=
  if flux_prompt text = "" then [.replyText usage_flux]
  else
    (if thinkingOk then [.sendWorking working_flux] else []) ++
    (match genf (flux_prompt text) with
     | .ok url => [.generate (flux_prompt text), .sendPhotoUrl url "FLUX"]
     | .error e =>
       [.generate (flux_prompt text),
        .replyText (errReply "RuntimeError" (fluxErrMsg e))]) ++
    (if thinkingOk then [.deleteWorking] else [])

/-- `sub` occurs contiguously in `s`. -/
def strContains (s sub : String) : Prop :=
  ∃ l r, s = l ++ sub ++ r

/-- Claim C8: a `/image` message whose remaining text strips to empty gets
exactly the usage-hint reply — no backend call, no working notice, no
photo. -/
theorem image_empty_prompt_usage (text : Option String) (tOk : Bool)
    (gen : String → Except GwErr (List Nat × (String × Nat × Nat))) (df : Bool)
    (h : image_prompt text = "") :
    handle_image text tOk gen df = [.replyText usage_image] ∧
    (∀ p, BotAction.generate p ∉ handle_image text tOk gen df) ∧
    (∀ m, BotAction.sendWorking m ∉ handle_image text tOk gen df) ∧
    (∀ b c, BotAction.sendPhotoBytes b c ∉ handle_image text tOk gen df) := by
  have h1 : handle_image text tOk gen df = [.replyText usage_image] := by
    unfold handle_image
    rw [if_pos h]
  refine ⟨h1, ?_, ?_, ?_⟩ <;> intros <;> rw [h1] <;> simp

/-- Witness for C8: `/image` followed by spaces only. -/
theorem image_empty_prompt_usage_witness :
    handle_image (some "/image   ") true (fun _ => .error .missingCreds) false =
      [.replyText usage_image] :=
  (image_empty_prompt_usage (some "/image   ") true
    (fun _ => .error .missingCreds) false (by decide)).1

/-- Claim C9: a backend error inside `/image` or `/flux` is caught and
turned into a reply carrying the error kind name and message text (the
handler's action list is fully determined, ending with the best-effort
notice removal when the notice exists); the removal's own failure changes
nothing observable, and the notice is removed in success and failure
alike. -/
theorem dispatcher_error_handling :
    (∀ (text : Option String) (tOk df : Bool)
        (gen : String → Except GwErr (List Nat × (String × Nat × Nat)))
        (e : GwErr), image_prompt text ≠ "" → gen (image_prompt text) = .error e →
      handle_image text tOk gen df =
        (if tOk then [BotAction.sendWorking working_sdxl] else []) ++
        [BotAction.generate (image_prompt text),
         BotAction.replyText (errReply (gwErrName e) (gwErrMsg e))] ++
        (if tOk then [BotAction.deleteWorking] else []) ∧
      strContains (errReply (gwErrName e) (gwErrMsg e)) (gwErrName e) ∧
      strContains (errReply (gwErrName e) (gwErrMsg e)) (gwErrMsg e)) ∧
    (∀ (text : Option String) (tOk df : Bool)
        (gen : String → Except GwErr (List Nat × (String × Nat × Nat))),
      image_prompt text ≠ "" →
      handle_image text tOk gen df = handle_image text tOk gen (!df) ∧
      (tOk = true → BotAction.deleteWorking ∈ handle_image text tOk gen df)) ∧
    (∀ (text : Option String) (tOk df : Bool)
        (genf : String → Except FluxErr String) (ef : FluxErr),
      flux_prompt text ≠ "" → genf (flux_prompt text) = .error ef →
      handle_flux text tOk genf df =
        (if tOk then [BotAction.sendWorking working_flux] else []) ++
        [BotAction.generate (flux_prompt text),
         BotAction.replyText (errReply "RuntimeError" (fluxErrMsg ef))] ++
        (if tOk then [BotAction.deleteWorking] else []) ∧
      strContains (errReply "RuntimeError" (fluxErrMsg ef)) "RuntimeError" ∧
      strContains (errReply "RuntimeError" (fluxErrMsg ef)) (fluxErrMsg ef)) := by
  refine ⟨?_, ?_, ?_⟩
  · intro text tOk df gen e hne hgen
    refine ⟨?_, ?_, ?_⟩
    · unfold handle_image
      rw [if_neg hne, hgen]
    · exact ⟨"出图失败：", ": " ++ gwErrMsg e,
        (String.append_assoc ("出图失败：" ++ gwErrName e) ": " (gwErrMsg e)).symm ▸ rfl⟩
    · refine ⟨"出图失败：" ++ gwErrName e ++ ": ", "", ?_⟩
      rw [String.append_empty]
      rfl
  · intro text tOk df gen hne
    refine ⟨rfl, ?_⟩
    intro htok
    unfold handle_image
    rw [if_neg hne, htok]
    cases gen (image_prompt text) <;> simp
  · intro text tOk df genf ef hne hgen
    refine ⟨?_, ?_, ?_⟩
    · unfold handle_flux
      rw [if_neg hne, hgen]
    · exact ⟨"出图失败：", ": " ++ fluxErrMsg ef,
        (String.append_assoc ("出图失败：" ++ "RuntimeError") ": "
          (fluxErrMsg ef)).symm ▸ rfl⟩
    · refine ⟨"出图失败：" ++ "RuntimeError" ++ ": ", "", ?_⟩
      rw [String.append_empty]
      rfl

end Imagebot
